import Mathlib

/-!
Shallow embedding of `src/agents/api_selection_agent.py` (class `APISelectionAgent`).

The agent fetches external data from three HTTP sources (Google Custom Search,
NASA APOD, arXiv), with a per-instance result cache and a retry loop per source.
HTTP responses are modelled as an environment mapping each attempt index to the
response that `requests.get` would return on that attempt; the memory sink
(`MemoryManager`) and `time.sleep` are modelled as an explicit effect trace.
Python exceptions escaping a function (e.g. `response.json()` on a malformed
body) are modelled with `Except`.
-/

/-- A `struct_time` / `datetime`-like value: the fields produced by parsing a
timestamp with format `%Y-%m-%dT%H:%M:%SZ`. -/
structure DateTime where
  year : Nat
  month : Nat
  day : Nat
  hour : Nat
  minute : Nat
  second : Nat
deriving DecidableEq, Repr

/-- The value of `time.gmtime(0)`: the epoch origin 1970-01-01T00:00:00. -/
def epochDT : DateTime := ⟨1970, 1, 1, 0, 0, 0⟩

/-- A research-paper record as built in `_fetch_from_arxiv` (the `pointer` dict). -/
structure Paper where
  title : String
  summary : String
  year : Nat
  published : String
  link : String
  parsed_date : DateTime
deriving DecidableEq, Repr

/-- A value stored in the composite result dict returned by `fetch_external_data`. -/
inductive RVal where
  | str (s : String)
  | papers (ps : List Paper)
deriving DecidableEq, Repr

/-- A Python dict with string keys, as an association list (first binding wins,
insertion by consing, mirroring dict lookup behaviour for how the agent uses it). -/
abbrev PyDict := List (String × RVal)

/-- A value handed to `MemoryManager.store_data`. -/
inductive StoredValue where
  | urls (us : List (Option String))
  | dict (d : PyDict)
deriving DecidableEq, Repr

/-- One observable side effect of the agent: a log line, a stored artifact,
an outbound HTTP request, or a `time.sleep`. -/
inductive Effect where
  | logEvent (msg : String)
  | storeData (key : String) (value : StoredValue)
  | httpGet (url : String)
  | sleep (seconds : Nat)
deriving DecidableEq, Repr

/-- A Python exception escaping an adapter (here only `response.json()` failures). -/
inductive PyExc where
  | jsonDecodeError
deriving DecidableEq, Repr

/-- One item of the Google response `items` array; each field is `res.get(...)`,
absent keys give `none`. -/
structure GItem where
  title : Option String
  link : Option String
  snippet : Option String
deriving DecidableEq, Repr

/-- A parsed Google JSON body; `items = none` models a body without an `items` key. -/
structure GoogleBody where
  items : Option (List GItem)
deriving DecidableEq, Repr

/-- One HTTP response of the Google endpoint; `body = none` models a body that is
not well-formed JSON, so that `response.json()` raises. -/
structure GoogleResponse where
  status : Nat
  body : Option GoogleBody
deriving DecidableEq, Repr

/-- A parsed NASA APOD JSON body. -/
structure NasaBody where
  title : Option String
  explanation : Option String
deriving DecidableEq, Repr

/-- One HTTP response of the NASA endpoint. -/
structure NasaResponse where
  status : Nat
  body : Option NasaBody
deriving DecidableEq, Repr

/-- One entry of the parsed arXiv feed (`feedparser.parse(response.text).entries`);
each field is `entry.get(...)`, absent keys give `none`. feedparser itself never
raises, so there is no malformed-body case for this endpoint. -/
structure ArxivEntry where
  title : Option String
  summary : Option String
  published : Option String
  link : Option String
deriving DecidableEq, Repr

/-- One HTTP response of the arXiv endpoint, already run through feedparser. -/
structure ArxivResponse where
  status : Nat
  entries : List ArxivEntry
deriving DecidableEq, Repr

/-- The environment of one `fetch_external_data` call: the response each endpoint
would give on its i-th request attempt, and the wall-clock year
(`datetime.datetime.now().year`). -/
structure Env where
  googleResponses : Nat → GoogleResponse
  nasaResponses : Nat → NasaResponse
  arxivResponses : Nat → ArxivResponse
  currentYear : Nat

/-- The mutable state of an `APISelectionAgent` instance: the retry bound fixed at
construction and the in-memory cache (`self.cache`), a dict from query text to
the composite result dict. -/
structure AgentState where
  maxRetries : Nat
  cache : List (String × PyDict)

/- ---------------- string helpers (Python semantics) ---------------- -/

/-- Python `sep.join(parts)`. -/
def pyJoin (sep : String) : List String → String
  | [] => ""
  | [s] => s
  | s :: rest => s ++ sep ++ pyJoin sep rest

/-- Whitespace stripped by Python `str.strip()`: the characters for which
`str.isspace()` holds — ASCII whitespace, the file/group/record/unit separators
`\x1c`-`\x1f`, next-line `\x85`, and the Unicode space and line/paragraph
separators. -/
def isPySpace (c : Char) : Bool :=
  c == ' ' || c == '\t' || c == '\n' || c == '\r' || c.toNat == 11 || c.toNat == 12
    || (28 ≤ c.toNat && c.toNat ≤ 31) || c.toNat == 133 || c.toNat == 160
    || c.toNat == 5760 || (8192 ≤ c.toNat && c.toNat ≤ 8202)
    || c.toNat == 8232 || c.toNat == 8233 || c.toNat == 8239 || c.toNat == 8287
    || c.toNat == 12288

/-- Python `str.strip()`. -/
def pyStrip (s : String) : String :=
  ⟨((s.data.dropWhile isPySpace).reverse.dropWhile isPySpace).reverse⟩

/-- Python `str(x)` applied to an `Optional[str]`: `None` prints as `"None"`. -/
def pyShowOpt : Option String → String
  | some s => s
  | none => "None"

/-- Does `pre` start the list `s`? -/
def startsWithChars : List Char → List Char → Bool
  | [], _ => true
  | _ :: _, [] => false
  | p :: ps, c :: cs => p == c && startsWithChars ps cs

/-- Python `pat in s` substring containment over char lists. -/
def containsSub (pat : List Char) : List Char → Bool
  | [] => startsWithChars pat []
  | c :: cs => startsWithChars pat (c :: cs) || containsSub pat cs

/- ---------------- timestamp parsing (`strptime "%Y-%m-%dT%H:%M:%SZ"`) -------- -/

/-- Numeric value of a decimal digit character, if it is one. -/
def digitVal (c : Char) : Option Nat :=
  if c.isDigit then some (c.toNat - 48) else none

/-- Parse exactly four digits (the `%Y` directive). -/
def parse4 : List Char → Option (Nat × List Char)
  | a :: b :: c :: d :: rest => do
    let x ← digitVal a
    let y ← digitVal b
    let z ← digitVal c
    let w ← digitVal d
    some (x * 1000 + y * 100 + z * 10 + w, rest)
  | _ => none

/-- Parse a one-or-two digit field: take two digits when their value satisfies
`ok2` (the two-digit regex alternatives of the directive), otherwise take one
digit when it satisfies `ok1` (the one-digit alternative). -/
def parseField (ok2 ok1 : Nat → Bool) : List Char → Option (Nat × List Char)
  | a :: b :: rest =>
    match digitVal a, digitVal b with
    | some x, some y =>
      if ok2 (x * 10 + y) then some (x * 10 + y, rest)
      else if ok1 x then some (x, b :: rest) else none
    | some x, none => if ok1 x then some (x, b :: rest) else none
    | none, _ => none
  | [a] =>
    match digitVal a with
    | some x => if ok1 x then some (x, []) else none
    | none => none
  | [] => none

/-- Consume one expected literal character of the format string. CPython
compiles the strptime format into a regex with `re.IGNORECASE`, so the literal
letters `T` and `Z` also match their lowercase forms. -/
def expectChar (c : Char) : List Char → Option (List Char)
  | [] => none
  | a :: rest => if a.toLower == c.toLower then some rest else none

/-- Is `y` a Gregorian leap year (as `datetime` validates days)? -/
def isLeapYear (y : Nat) : Bool :=
  y % 4 == 0 && (y % 100 != 0 || y % 400 == 0)

/-- Number of days of month `m` (1-12) of year `y`. -/
def daysInMonth (y m : Nat) : Nat :=
  if m == 2 then (if isLeapYear y then 29 else 28)
  else if m == 4 || m == 6 || m == 9 || m == 11 then 30
  else 31

/-- `datetime.datetime.strptime(s, "%Y-%m-%dT%H:%M:%SZ")`: match the whole string
against the format (compiled case-insensitively, per CPython `_strptime`), then
validate the fields as the `datetime` constructor does; `none` models the raised
`ValueError`. -/
def parseDateZ (s : String) : Option DateTime := do
  let (y, r) ← parse4 s.data
  let r ← expectChar '-' r
  let (mo, r) ← parseField (fun v => 1 ≤ v && v ≤ 12) (fun v => 1 ≤ v) r
  let r ← expectChar '-' r
  let (d, r) ← parseField (fun v => 1 ≤ v && v ≤ 31) (fun v => 1 ≤ v) r
  let r ← expectChar 'T' r
  let (h, r) ← parseField (fun v => v ≤ 23) (fun _ => true) r
  let r ← expectChar ':' r
  let (mi, r) ← parseField (fun v => v ≤ 59) (fun _ => true) r
  let r ← expectChar ':' r
  let (sec, r) ← parseField (fun v => v ≤ 61) (fun _ => true) r
  let r ← expectChar 'Z' r
  if r = [] && 1 ≤ y && 1 ≤ mo && mo ≤ 12 && 1 ≤ d && d ≤ daysInMonth y mo && sec ≤ 59 then
    some ⟨y, mo, d, h, mi, sec⟩
  else none

/- ---------------- constants of the agent ---------------- -/

/-- `self.google_endpoint`. -/
def googleEndpoint : String := "https://www.googleapis.com/customsearch/v1"

/-- `self.nasa_endpoint`. -/
def nasaEndpoint : String := "https://api.nasa.gov/planetary/apod"

/-- The arXiv query URL of `_fetch_from_arxiv`. -/
def arxivUrl : String := "http://export.arxiv.org/api/query"

/-- The keyword list `space_keywords` of `fetch_external_data`. -/
def space_keywords : List String :=
  ["nasa", "space", "astronomy", "planet", "cosmos", "asteroid", "galaxy"]

/-- `any(keyword in query.lower() for keyword in space_keywords)`; `Char.toLower`
models `str.lower` (they agree on the ASCII keyword alphabet). -/
def isSpaceQuery (query : String) : Bool :=
  space_keywords.any fun k => containsSub k.data (query.data.map Char.toLower)

/- log messages (the f-strings of the source) -/

/-- Log line at the top of `fetch_external_data`. -/
def processingMsg (query : String) : String :=
  "[APISelectionAgent] Processing external data for: '" ++ query ++ "'"

/-- Log line of the cache-hit branch. -/
def cacheHitMsg : String := "[APISelectionAgent] Cache hit! Returning cached data."

/-- Log line announcing the cache insertion. -/
def cachedMsg : String := "[APISelectionAgent] Cached the new result."

/-- Log line reporting the arXiv advancement count. -/
def foundMsg (n : Nat) : String :=
  "[APISelectionAgent] Found " ++ toString n ++ " advancements from arXiv."

/-- Entry log line of `_fetch_from_google`. -/
def googleEntryMsg : String := "[APISelectionAgent] Querying Google Custom Search API."

/-- Per-attempt failure log line of `_fetch_from_google`. -/
def googleFailMsg (attempt status : Nat) : String :=
  "[APISelectionAgent] Google API attempt " ++ toString (attempt + 1)
    ++ " failed with status " ++ toString status

/-- Sentinel text returned by `_fetch_from_google` after exhausting retries. -/
def googleSentinel (n : Nat) : String :=
  "Error: Google Search API request failed after " ++ toString n ++ " attempts."

/-- Entry log line of `_fetch_from_nasa`. -/
def nasaEntryMsg : String := "[APISelectionAgent] Querying NASA API (APOD)."

/-- Per-attempt failure log line of `_fetch_from_nasa`. -/
def nasaFailMsg (attempt status : Nat) : String :=
  "[APISelectionAgent] NASA API attempt " ++ toString (attempt + 1)
    ++ " failed with status " ++ toString status

/-- Sentinel text returned by `_fetch_from_nasa` after exhausting retries. -/
def nasaSentinel (n : Nat) : String :=
  "Error: NASA API request failed after " ++ toString n ++ " attempts."

/-- Entry log line of `_fetch_from_arxiv`. -/
def arxivEntryMsg : String := "[APISelectionAgent] Querying arXiv API for research papers."

/-- Per-attempt failure log line of `_fetch_from_arxiv`. -/
def arxivFailMsg (attempt status : Nat) : String :=
  "[APISelectionAgent] arXiv API attempt " ++ toString (attempt + 1)
    ++ " failed with status " ++ toString status

/-- Log line of the arXiv for-else branch after exhausting retries. -/
def arxivExhaustMsg : String := "[APISelectionAgent] arXiv API request failed after retries"

/-- Log line for an unparseable `published` field (the exception text of the
f-string is abstracted into a fixed suffix; no claim inspects it). -/
def parseErrMsg (published : String) : String :=
  "[APISelectionAgent] Error parsing published date '" ++ published
    ++ "': time data does not match format"

/- ---------------- the Google adapter ---------------- -/

/-- The text block one Google item contributes to the joined result text. -/
def googleBlock (res : GItem) : String :=
  "Title: " ++ pyShowOpt res.title ++ "\nLink: " ++ pyShowOpt res.link
    ++ "\nSnippet: " ++ pyShowOpt res.snippet ++ "\n"

/-- Body of one status-200 Google attempt: `response.json()` (raising on a
malformed body), the `items` check, the `external_urls` store and the formatted
result text. -/
def googleHit (r : GoogleResponse) : Except PyExc String × List Effect :=
  match r.body with
  | none => (.error .jsonDecodeError, [.httpGet googleEndpoint])
  | some body =>
    match body.items with
    | some top_results =>
      (.ok (pyJoin "\n" (top_results.map googleBlock)),
       [.httpGet googleEndpoint,
        .storeData "external_urls" (.urls (top_results.map GItem.link))])
    | none => (.ok "No web results found.", [.httpGet googleEndpoint])

/-- The retry loop `for attempt in range(max_retries)` of `_fetch_from_google`:
`attempt` is the current index, the second argument the remaining attempts. -/
def googleGo (N : Nat) (resp : Nat → GoogleResponse) : Nat → Nat → Except PyExc String × List Effect
  | _, 0 => (.ok (googleSentinel N), [])
  | attempt, fuel + 1 =>
    let r := resp attempt
    if r.status = 200 then googleHit r
    else
      ((googleGo N resp (attempt + 1) fuel).1,
       .httpGet googleEndpoint :: .logEvent (googleFailMsg attempt r.status)
         :: .sleep 1 :: (googleGo N resp (attempt + 1) fuel).2)

/-- `_fetch_from_google`. -/
def fetch_from_google (N : Nat) (resp : Nat → GoogleResponse) :
    Except PyExc String × List Effect :=
  ((googleGo N resp 0 N).1, .logEvent googleEntryMsg :: (googleGo N resp 0 N).2)

/- ---------------- the NASA adapter ---------------- -/

/-- Body of one status-200 NASA attempt: `response.json()` and the three-line
APOD text block (with the literal default texts of `data.get`). -/
def nasaHit (r : NasaResponse) : Except PyExc String × List Effect :=
  match r.body with
  | none => (.error .jsonDecodeError, [.httpGet nasaEndpoint])
  | some data =>
    let title := data.title.getD "No title provided."
    let explanation := data.explanation.getD "No explanation available."
    (.ok ("NASA APOD\nTitle: " ++ title ++ "\nExplanation: " ++ explanation ++ "\n"),
     [.httpGet nasaEndpoint])

/-- The retry loop of `_fetch_from_nasa`. -/
def nasaGo (N : Nat) (resp : Nat → NasaResponse) : Nat → Nat → Except PyExc String × List Effect
  | _, 0 => (.ok (nasaSentinel N), [])
  | attempt, fuel + 1 =>
    let r := resp attempt
    if r.status = 200 then nasaHit r
    else
      ((nasaGo N resp (attempt + 1) fuel).1,
       .httpGet nasaEndpoint :: .logEvent (nasaFailMsg attempt r.status)
         :: .sleep 1 :: (nasaGo N resp (attempt + 1) fuel).2)

/-- `_fetch_from_nasa`. -/
def fetch_from_nasa (N : Nat) (resp : Nat → NasaResponse) :
    Except PyExc String × List Effect :=
  ((nasaGo N resp 0 N).1, .logEvent nasaEntryMsg :: (nasaGo N resp 0 N).2)

/- ---------------- the arXiv adapter ---------------- -/

/-- The `published` year of a feed entry: the parsed year, or 0 when
`strptime` raises (the `except` branch of `_fetch_from_arxiv`). -/
def entryYear (e : ArxivEntry) : Nat :=
  match parseDateZ (e.published.getD "") with
  | some d => d.year
  | none => 0

/-- The `pointer` dict `_fetch_from_arxiv` builds for one retained entry;
`parsed_date` is the reparse via `time.strptime` when the first parse succeeded,
else `time.gmtime(0)`. -/
def entryToPaper (e : ArxivEntry) : Paper :=
  { title := pyStrip (e.title.getD "No Title")
    summary := pyStrip (e.summary.getD "No summary available.")
    year := entryYear e
    published := e.published.getD ""
    link := e.link.getD ""
    parsed_date := (parseDateZ (e.published.getD "")).getD epochDT }

/-- The entry loop of `_fetch_from_arxiv`: parse each `published` field (logging
when it fails) and keep the entries whose year reaches the threshold, in order. -/
def arxivPapers (threshold : Nat) : List ArxivEntry → List Paper × List Effect
  | [] => ([], [])
  | e :: es =>
    let published_str := e.published.getD ""
    let errT : List Effect :=
      match parseDateZ published_str with
      | some _ => []
      | none => [.logEvent (parseErrMsg published_str)]
    if threshold ≤ entryYear e then
      (entryToPaper e :: (arxivPapers threshold es).1, errT ++ (arxivPapers threshold es).2)
    else ((arxivPapers threshold es).1, errT ++ (arxivPapers threshold es).2)

/-- The retry loop of `_fetch_from_arxiv` (`for ... break ... else`): `some r`
is the response of the first status-200 attempt, `none` the exhausted for-else. -/
def arxivGo (resp : Nat → ArxivResponse) : Nat → Nat → Option ArxivResponse × List Effect
  | _, 0 => (none, [])
  | attempt, fuel + 1 =>
    let r := resp attempt
    if r.status = 200 then (some r, [.httpGet arxivUrl])
    else
      ((arxivGo resp (attempt + 1) fuel).1,
       .httpGet arxivUrl :: .logEvent (arxivFailMsg attempt r.status)
         :: .sleep 1 :: (arxivGo resp (attempt + 1) fuel).2)

/-- `_fetch_from_arxiv`; `currentYear` is `datetime.datetime.now().year` and the
threshold is `current_year - 5`. -/
def fetch_from_arxiv (N currentYear : Nat) (resp : Nat → ArxivResponse) :
    List Paper × List Effect :=
  match (arxivGo resp 0 N).1 with
  | none =>
    ([], .logEvent arxivEntryMsg :: (arxivGo resp 0 N).2 ++ [.logEvent arxivExhaustMsg])
  | some r =>
    ((arxivPapers (currentYear - 5) r.entries).1,
     .logEvent arxivEntryMsg :: (arxivGo resp 0 N).2 ++ (arxivPapers (currentYear - 5) r.entries).2)

/- ---------------- the orchestrator ---------------- -/

/-- The composite dict literal `{"summary": data, "recent_advancements": research_data}`. -/
def mkResult (data : String) (research : List Paper) : PyDict :=
  [("summary", RVal.str data), ("recent_advancements", RVal.papers research)]

/-- `fetch_external_data`: the result (or escaped exception), the effect trace,
and the agent state after the call. -/
def fetch_external_data (env : Env) (st : AgentState) (query : String) :
    Except PyExc PyDict × List Effect × AgentState :=
  let log0 := Effect.logEvent (processingMsg query)
  match st.cache.lookup query with
  | some cached =>
    (.ok cached,
     [log0, .logEvent cacheHitMsg, .storeData "external_data" (.dict cached)],
     st)
  | none =>
    let sres :=
      if isSpaceQuery query then fetch_from_nasa st.maxRetries env.nasaResponses
      else fetch_from_google st.maxRetries env.googleResponses
    match sres.1 with
    | .error e => (.error e, log0 :: sres.2, st)
    | .ok data =>
      let research := (fetch_from_arxiv st.maxRetries env.currentYear env.arxivResponses).1
      let t2 := (fetch_from_arxiv st.maxRetries env.currentYear env.arxivResponses).2
      let result := mkResult data research
      (.ok result,
       log0 :: sres.2 ++ t2
         ++ [.logEvent (foundMsg research.length), .logEvent cachedMsg,
             .storeData "external_data" (.dict result)],
       { st with cache := (query, result) :: st.cache })

/- ---------------- trace observations ---------------- -/

/-- Number of `log_event` calls with exactly the message `m` in a trace. -/
def countLog (m : String) : List Effect → Nat
  | [] => 0
  | .logEvent s :: t => (if s = m then 1 else 0) + countLog m t
  | _ :: t => countLog m t

/-- Number of outbound HTTP requests in a trace. -/
def networkCalls : List Effect → Nat
  | [] => 0
  | .httpGet _ :: t => networkCalls t + 1
  | _ :: t => networkCalls t

/-- The `time.sleep` effects of a trace, in order. -/
def sleepFilter : List Effect → List Effect
  | [] => []
  | .sleep n :: t => .sleep n :: sleepFilter t
  | _ :: t => sleepFilter t

/-- The trace of the cache-hit branch of `fetch_external_data`. -/
def cacheHitTrace (query : String) (cached : PyDict) : List Effect :=
  [.logEvent (processingMsg query), .logEvent cacheHitMsg,
   .storeData "external_data" (.dict cached)]

/- ---------------- string lemmas ---------------- -/

/-- Appending strings appends their character lists. -/
theorem data_append (s t : String) : (s ++ t).data = s.data ++ t.data := rfl

/-- Strings differing at one character position are different. -/
theorem msg_ne_of_char20 {s t : String} {c d : Char} (hs : s.data[20]? = some c)
    (ht : t.data[20]? = some d) (hcd : c ≠ d) : s ≠ t := by
  intro he
  subst he
  rw [hs] at ht
  exact hcd (Option.some.inj ht)

/-- A string extending a long prefix is longer than 20 characters. -/
theorem char20_len (pre rest : String) (hl : 20 < pre.data.length) :
    20 < (pre ++ rest).data.length := by
  rw [data_append, List.length_append]
  omega

/-- Character 20 of a string is character 20 of a long enough prefix. -/
theorem char20_of_pre (pre rest : String) (c : Char) (hp : pre.data[20]? = some c)
    (hl : 20 < pre.data.length) : (pre ++ rest).data[20]? = some c := by
  rw [data_append, List.getElem?_append, if_pos hl, hp]

/-- All agent log messages share the 20-character prefix `"[APISelectionAgent] "`;
the orchestrator's processing line continues with `P`. -/
theorem processingMsg_char20 (q : String) : (processingMsg q).data[20]? = some 'P' := by
  unfold processingMsg
  exact char20_of_pre _ _ _ (char20_of_pre _ _ _ (by decide) (by decide))
    (char20_len _ _ (by decide))

/-- The Google per-attempt failure line continues with `G` after the shared prefix. -/
theorem googleFailMsg_char20 (a s : Nat) : (googleFailMsg a s).data[20]? = some 'G' := by
  unfold googleFailMsg
  apply char20_of_pre
  · apply char20_of_pre
    · exact char20_of_pre _ _ _ (by decide) (by decide)
    · exact char20_len _ _ (by decide)
  · exact char20_len _ _ (char20_len _ _ (by decide))

/-- The NASA per-attempt failure line continues with `N` after the shared prefix. -/
theorem nasaFailMsg_char20 (a s : Nat) : (nasaFailMsg a s).data[20]? = some 'N' := by
  unfold nasaFailMsg
  apply char20_of_pre
  · apply char20_of_pre
    · exact char20_of_pre _ _ _ (by decide) (by decide)
    · exact char20_len _ _ (by decide)
  · exact char20_len _ _ (char20_len _ _ (by decide))

/-- The arXiv per-attempt failure line continues with `a` after the shared prefix. -/
theorem arxivFailMsg_char20 (a s : Nat) : (arxivFailMsg a s).data[20]? = some 'a' := by
  unfold arxivFailMsg
  apply char20_of_pre
  · apply char20_of_pre
    · exact char20_of_pre _ _ _ (by decide) (by decide)
    · exact char20_len _ _ (by decide)
  · exact char20_len _ _ (char20_len _ _ (by decide))

/-- The timestamp-parse-error line continues with `E` after the shared prefix. -/
theorem parseErrMsg_char20 (s : String) : (parseErrMsg s).data[20]? = some 'E' := by
  unfold parseErrMsg
  exact char20_of_pre _ _ _ (char20_of_pre _ _ _ (by decide) (by decide))
    (char20_len _ _ (by decide))

/-- The advancement-count line continues with `F` after the shared prefix. -/
theorem foundMsg_char20 (n : Nat) : (foundMsg n).data[20]? = some 'F' := by
  unfold foundMsg
  exact char20_of_pre _ _ _ (char20_of_pre _ _ _ (by decide) (by decide))
    (char20_len _ _ (by decide))

/- ---------------- substring characterization ---------------- -/

/-- `startsWithChars` decides list-prefix extension. -/
theorem startsWithChars_iff (p : List Char) : ∀ s : List Char,
    startsWithChars p s = true ↔ ∃ r, p ++ r = s := by
  induction p with
  | nil => intro s; simp [startsWithChars]
  | cons a as ih =>
    intro s
    cases s with
    | nil =>
      simp [startsWithChars]
    | cons b bs =>
      simp only [startsWithChars, Bool.and_eq_true, beq_iff_eq, ih, List.cons_append,
        List.cons.injEq]
      constructor
      · rintro ⟨hab, r, hr⟩
        exact ⟨r, hab, hr⟩
      · rintro ⟨r, hab, hr⟩
        exact ⟨hab, r, hr⟩

/-- `containsSub` decides substring containment (Python's `in` on strings). -/
theorem containsSub_iff (pat : List Char) : ∀ s : List Char,
    containsSub pat s = true ↔ ∃ l r, l ++ pat ++ r = s := by
  intro s
  induction s with
  | nil =>
    simp only [containsSub, startsWithChars_iff]
    constructor
    · rintro ⟨r, hr⟩
      exact ⟨[], r, by simpa using hr⟩
    · rintro ⟨l, r, hr⟩
      rcases List.append_eq_nil.mp hr with ⟨h1, h2⟩
      rcases List.append_eq_nil.mp h1 with ⟨h3, h4⟩
      exact ⟨[], by simp [h2, h4]⟩
  | cons c cs ih =>
    simp only [containsSub, Bool.or_eq_true, startsWithChars_iff, ih]
    constructor
    · rintro (⟨r, hr⟩ | ⟨l, r, hr⟩)
      · exact ⟨[], r, by simpa using hr⟩
      · exact ⟨c :: l, r, by simp [hr]⟩
    · rintro ⟨l, r, hr⟩
      cases l with
      | nil => exact Or.inl ⟨r, by simpa using hr⟩
      | cons x xs =>
        right
        rw [List.cons_append, List.cons_append, List.cons.injEq] at hr
        exact ⟨xs, r, hr.2⟩

/-- The router classifies a query as space-related exactly when the lowercased
query contains one of the seven keywords as a substring. -/
theorem isSpaceQuery_iff (q : String) :
    isSpaceQuery q = true ↔
      ∃ k ∈ space_keywords, ∃ l r, l ++ k.data ++ r = q.data.map Char.toLower := by
  simp only [isSpaceQuery, List.any_eq_true, containsSub_iff]

/- ---------------- counting log lines in traces ---------------- -/

/-- `countLog` distributes over trace concatenation. -/
theorem countLog_append (m : String) : ∀ t1 t2 : List Effect,
    countLog m (t1 ++ t2) = countLog m t1 + countLog m t2 := by
  intro t1 t2
  induction t1 with
  | nil => simp [countLog]
  | cons e t ih =>
    cases e <;> simp [countLog, ih, Nat.add_assoc]

/-- A status-200 Google attempt logs nothing. -/
theorem countLog_googleHit (m : String) (r : GoogleResponse) :
    countLog m (googleHit r).2 = 0 := by
  rcases r with ⟨st, body⟩
  cases body with
  | none => rfl
  | some b =>
    rcases b with ⟨items⟩
    cases items <;> rfl

/-- The Google retry loop logs no message whose 21st character is `Q` (in
particular none of the three adapter entry lines). -/
theorem countLog_googleGo (N : Nat) (resp : Nat → GoogleResponse) (m : String)
    (hm : m.data[20]? = some 'Q') :
    ∀ fuel attempt, countLog m (googleGo N resp attempt fuel).2 = 0 := by
  intro fuel
  induction fuel with
  | zero => intro _; rfl
  | succ f ih =>
    intro attempt
    simp only [googleGo]
    split
    · exact countLog_googleHit m _
    · simp only [countLog]
      rw [if_neg (msg_ne_of_char20 (googleFailMsg_char20 attempt (resp attempt).status) hm
        (by decide))]
      simp [ih]

/-- A status-200 NASA attempt logs nothing. -/
theorem countLog_nasaHit (m : String) (r : NasaResponse) :
    countLog m (nasaHit r).2 = 0 := by
  rcases r with ⟨st, body⟩
  cases body <;> rfl

/-- The NASA retry loop logs no message whose 21st character is `Q`. -/
theorem countLog_nasaGo (N : Nat) (resp : Nat → NasaResponse) (m : String)
    (hm : m.data[20]? = some 'Q') :
    ∀ fuel attempt, countLog m (nasaGo N resp attempt fuel).2 = 0 := by
  intro fuel
  induction fuel with
  | zero => intro _; rfl
  | succ f ih =>
    intro attempt
    simp only [nasaGo]
    split
    · exact countLog_nasaHit m _
    · simp only [countLog]
      rw [if_neg (msg_ne_of_char20 (nasaFailMsg_char20 attempt (resp attempt).status) hm
        (by decide))]
      simp [ih]

/-- The arXiv retry loop logs no message whose 21st character is `Q`. -/
theorem countLog_arxivGo (resp : Nat → ArxivResponse) (m : String)
    (hm : m.data[20]? = some 'Q') :
    ∀ fuel attempt, countLog m (arxivGo resp attempt fuel).2 = 0 := by
  intro fuel
  induction fuel with
  | zero => intro _; rfl
  | succ f ih =>
    intro attempt
    simp only [arxivGo]
    split
    · rfl
    · simp only [countLog]
      rw [if_neg (msg_ne_of_char20 (arxivFailMsg_char20 attempt (resp attempt).status) hm
        (by decide))]
      simp [ih]

/-- The arXiv entry loop logs no message whose 21st character is `Q`. -/
theorem countLog_arxivPapers (th : Nat) (m : String) (hm : m.data[20]? = some 'Q') :
    ∀ es : List ArxivEntry, countLog m (arxivPapers th es).2 = 0 := by
  intro es
  induction es with
  | nil => rfl
  | cons e es ih =>
    simp only [arxivPapers]
    have herr : ∀ errT : List Effect,
        (errT = [] ∨ errT = [.logEvent (parseErrMsg (e.published.getD ""))]) →
        countLog m (errT ++ (arxivPapers th es).2) = 0 := by
      rintro errT (h | h) <;> subst h
      · simpa using ih
      · rw [countLog_append]
        simp only [countLog]
        rw [if_neg (msg_ne_of_char20 (parseErrMsg_char20 (e.published.getD "")) hm
          (by decide))]
        simp [ih]
    split
    · exact herr _ (by split <;> simp)
    · exact herr _ (by split <;> simp)

/-- Log-line census of `_fetch_from_google`: among messages with 21st character
`Q`, only its own entry line appears, exactly once. -/
theorem countLog_fetch_from_google (N : Nat) (resp : Nat → GoogleResponse) (m : String)
    (hm : m.data[20]? = some 'Q') :
    countLog m (fetch_from_google N resp).2 = if googleEntryMsg = m then 1 else 0 := by
  unfold fetch_from_google
  simp only [countLog]
  rw [countLog_googleGo N resp m hm]
  omega

/-- Log-line census of `_fetch_from_nasa`. -/
theorem countLog_fetch_from_nasa (N : Nat) (resp : Nat → NasaResponse) (m : String)
    (hm : m.data[20]? = some 'Q') :
    countLog m (fetch_from_nasa N resp).2 = if nasaEntryMsg = m then 1 else 0 := by
  unfold fetch_from_nasa
  simp only [countLog]
  rw [countLog_nasaGo N resp m hm]
  omega

/-- Log-line census of `_fetch_from_arxiv`. -/
theorem countLog_fetch_from_arxiv (N y : Nat) (resp : Nat → ArxivResponse) (m : String)
    (hm : m.data[20]? = some 'Q') :
    countLog m (fetch_from_arxiv N y resp).2 = if arxivEntryMsg = m then 1 else 0 := by
  unfold fetch_from_arxiv
  split
  · simp only [countLog, List.append_eq, countLog_append]
    rw [countLog_arxivGo resp m hm]
    rw [if_neg (msg_ne_of_char20 (show arxivExhaustMsg.data[20]? = some 'a' by decide) hm
      (by decide))]
    omega
  · simp only [countLog, List.append_eq, countLog_append]
    rw [countLog_arxivGo resp m hm, countLog_arxivPapers _ m hm]
    omega

/- ---------------- retry-loop lemmas ---------------- -/

/-- The trace of `j` consecutive failing Google attempts starting at `attempt`. -/
def googleFailTrace (resp : Nat → GoogleResponse) : Nat → Nat → List Effect
  | _, 0 => []
  | attempt, j + 1 =>
    .httpGet googleEndpoint :: .logEvent (googleFailMsg attempt (resp attempt).status)
      :: .sleep 1 :: googleFailTrace resp (attempt + 1) j

/-- The trace of `j` consecutive failing NASA attempts starting at `attempt`. -/
def nasaFailTrace (resp : Nat → NasaResponse) : Nat → Nat → List Effect
  | _, 0 => []
  | attempt, j + 1 =>
    .httpGet nasaEndpoint :: .logEvent (nasaFailMsg attempt (resp attempt).status)
      :: .sleep 1 :: nasaFailTrace resp (attempt + 1) j

/-- The trace of `j` consecutive failing arXiv attempts starting at `attempt`. -/
def arxivFailTrace (resp : Nat → ArxivResponse) : Nat → Nat → List Effect
  | _, 0 => []
  | attempt, j + 1 =>
    .httpGet arxivUrl :: .logEvent (arxivFailMsg attempt (resp attempt).status)
      :: .sleep 1 :: arxivFailTrace resp (attempt + 1) j

/-- When every attempt fails, the Google loop returns the sentinel and the pure
failure trace. -/
theorem googleGo_exhaust (N : Nat) (resp : Nat → GoogleResponse) :
    ∀ fuel attempt, (∀ i, i < fuel → (resp (attempt + i)).status ≠ 200) →
    googleGo N resp attempt fuel =
      (.ok (googleSentinel N), googleFailTrace resp attempt fuel) := by
  intro fuel
  induction fuel with
  | zero => intro attempt _; rfl
  | succ f ih =>
    intro attempt h
    have h0 : (resp attempt).status ≠ 200 := by simpa using h 0 (Nat.succ_pos f)
    simp only [googleGo, googleFailTrace]
    rw [if_neg h0, ih (attempt + 1) (fun i hi => by
      have := h (i + 1) (by omega)
      rwa [show attempt + (i + 1) = attempt + 1 + i from by omega] at this)]

/-- When every attempt fails, the NASA loop returns the sentinel and the pure
failure trace. -/
theorem nasaGo_exhaust (N : Nat) (resp : Nat → NasaResponse) :
    ∀ fuel attempt, (∀ i, i < fuel → (resp (attempt + i)).status ≠ 200) →
    nasaGo N resp attempt fuel =
      (.ok (nasaSentinel N), nasaFailTrace resp attempt fuel) := by
  intro fuel
  induction fuel with
  | zero => intro attempt _; rfl
  | succ f ih =>
    intro attempt h
    have h0 : (resp attempt).status ≠ 200 := by simpa using h 0 (Nat.succ_pos f)
    simp only [nasaGo, nasaFailTrace]
    rw [if_neg h0, ih (attempt + 1) (fun i hi => by
      have := h (i + 1) (by omega)
      rwa [show attempt + (i + 1) = attempt + 1 + i from by omega] at this)]

/-- When every attempt fails, the arXiv loop reaches its for-else branch. -/
theorem arxivGo_exhaust (resp : Nat → ArxivResponse) :
    ∀ fuel attempt, (∀ i, i < fuel → (resp (attempt + i)).status ≠ 200) →
    arxivGo resp attempt fuel = (none, arxivFailTrace resp attempt fuel) := by
  intro fuel
  induction fuel with
  | zero => intro attempt _; rfl
  | succ f ih =>
    intro attempt h
    have h0 : (resp attempt).status ≠ 200 := by simpa using h 0 (Nat.succ_pos f)
    simp only [arxivGo, arxivFailTrace]
    rw [if_neg h0, ih (attempt + 1) (fun i hi => by
      have := h (i + 1) (by omega)
      rwa [show attempt + (i + 1) = attempt + 1 + i from by omega] at this)]

/-- A failure trace contains one one-second sleep per failed attempt. -/
theorem sleepFilter_googleFailTrace (resp : Nat → GoogleResponse) :
    ∀ j attempt, sleepFilter (googleFailTrace resp attempt j) = List.replicate j (.sleep 1) := by
  intro j
  induction j with
  | zero => intro _; rfl
  | succ n ih =>
    intro attempt
    simp only [googleFailTrace, sleepFilter, List.replicate, ih]

/-- A failure trace contains one one-second sleep per failed attempt. -/
theorem sleepFilter_nasaFailTrace (resp : Nat → NasaResponse) :
    ∀ j attempt, sleepFilter (nasaFailTrace resp attempt j) = List.replicate j (.sleep 1) := by
  intro j
  induction j with
  | zero => intro _; rfl
  | succ n ih =>
    intro attempt
    simp only [nasaFailTrace, sleepFilter, List.replicate, ih]

/-- A failure trace contains one one-second sleep per failed attempt. -/
theorem sleepFilter_arxivFailTrace (resp : Nat → ArxivResponse) :
    ∀ j attempt, sleepFilter (arxivFailTrace resp attempt j) = List.replicate j (.sleep 1) := by
  intro j
  induction j with
  | zero => intro _; rfl
  | succ n ih =>
    intro attempt
    simp only [arxivFailTrace, sleepFilter, List.replicate, ih]

/-- When the first success is the `j`-th attempt, the Google loop runs the
status-200 body on that response after `j` failure rounds. -/
theorem googleGo_success (N : Nat) (resp : Nat → GoogleResponse) :
    ∀ j fuel attempt, j < fuel → (resp (attempt + j)).status = 200 →
    (∀ i, i < j → (resp (attempt + i)).status ≠ 200) →
    googleGo N resp attempt fuel =
      ((googleHit (resp (attempt + j))).1,
       googleFailTrace resp attempt j ++ (googleHit (resp (attempt + j))).2) := by
  intro j
  induction j with
  | zero =>
    intro fuel attempt hj hs _
    cases fuel with
    | zero => omega
    | succ f =>
      simp only [googleGo, googleFailTrace]
      rw [if_pos (by simpa using hs)]
      simp
  | succ n ih =>
    intro fuel attempt hj hs hfail
    cases fuel with
    | zero => omega
    | succ f =>
      have h0 : (resp attempt).status ≠ 200 := by simpa using hfail 0 (Nat.succ_pos n)
      rw [show attempt + (n + 1) = attempt + 1 + n from by omega] at hs ⊢
      simp only [googleGo, googleFailTrace]
      rw [if_neg h0, ih f (attempt + 1) (by omega) hs (fun i hi => by
        have := hfail (i + 1) (by omega)
        rwa [show attempt + (i + 1) = attempt + 1 + i from by omega] at this)]
      simp [List.cons_append]

/-- When the first success is the `j`-th attempt, the NASA loop runs the
status-200 body on that response after `j` failure rounds. -/
theorem nasaGo_success (N : Nat) (resp : Nat → NasaResponse) :
    ∀ j fuel attempt, j < fuel → (resp (attempt + j)).status = 200 →
    (∀ i, i < j → (resp (attempt + i)).status ≠ 200) →
    nasaGo N resp attempt fuel =
      ((nasaHit (resp (attempt + j))).1,
       nasaFailTrace resp attempt j ++ (nasaHit (resp (attempt + j))).2) := by
  intro j
  induction j with
  | zero =>
    intro fuel attempt hj hs _
    cases fuel with
    | zero => omega
    | succ f =>
      simp only [nasaGo, nasaFailTrace]
      rw [if_pos (by simpa using hs)]
      simp
  | succ n ih =>
    intro fuel attempt hj hs hfail
    cases fuel with
    | zero => omega
    | succ f =>
      have h0 : (resp attempt).status ≠ 200 := by simpa using hfail 0 (Nat.succ_pos n)
      rw [show attempt + (n + 1) = attempt + 1 + n from by omega] at hs ⊢
      simp only [nasaGo, nasaFailTrace]
      rw [if_neg h0, ih f (attempt + 1) (by omega) hs (fun i hi => by
        have := hfail (i + 1) (by omega)
        rwa [show attempt + (i + 1) = attempt + 1 + i from by omega] at this)]
      simp [List.cons_append]

/-- Did an `Except` computation return normally? -/
def isOkE {ε α : Type} : Except ε α → Bool
  | .ok _ => true
  | .error _ => false

/-- A successful association-list lookup comes from some stored pair. -/
theorem lookup_mem {β : Type} : ∀ (l : List (String × β)) (k : String) (v : β),
    l.lookup k = some v → ∃ k', (k', v) ∈ l := by
  intro l
  induction l with
  | nil => intro k v h; simp [List.lookup] at h
  | cons p t ih =>
    intro k v h
    rcases p with ⟨a, b⟩
    simp only [List.lookup] at h
    split at h
    · exact ⟨a, by simp [Option.some.inj h]⟩
    · obtain ⟨k', hk'⟩ := ih k v h
      exact ⟨k', List.mem_cons_of_mem _ hk'⟩

/-- `sleepFilter` distributes over trace concatenation. -/
theorem sleepFilter_append : ∀ t1 t2 : List Effect,
    sleepFilter (t1 ++ t2) = sleepFilter t1 ++ sleepFilter t2 := by
  intro t1 t2
  induction t1 with
  | nil => rfl
  | cons e t ih => cases e <;> simp [sleepFilter, ih]

/-- No artifact is stored during the failing rounds of the Google loop. -/
theorem store_not_mem_googleFailTrace (resp : Nat → GoogleResponse) (k : String)
    (v : StoredValue) : ∀ j a, Effect.storeData k v ∉ googleFailTrace resp a j := by
  intro j
  induction j with
  | zero => intro a h; simp [googleFailTrace] at h
  | succ n ih =>
    intro a h
    simp only [googleFailTrace, List.mem_cons] at h
    rcases h with h | h | h | h <;> first
      | exact Effect.noConfusion h
      | exact ih (a + 1) h

/-- After a successful fetch, the query is cached and maps to the returned
composite; the state components are those of the post-call state. -/
theorem fetch_cache_lookup {env : Env} {st : AgentState} {q : String} {r : PyDict}
    {t : List Effect} {st1 : AgentState}
    (h : fetch_external_data env st q = (.ok r, t, st1)) :
    st1.cache.lookup q = some r := by
  simp only [fetch_external_data] at h
  split at h
  · rename_i cached heq
    have h1 : Except.ok cached = Except.ok r := congrArg Prod.fst h
    have h3 : st = st1 := congrArg (fun p => p.2.2) h
    rw [← h3, heq, Except.ok.inj h1]
  · split at h
    · exact absurd (congrArg Prod.fst h) (by simp)
    · rename_i data heq
      have h1 : Except.ok (mkResult data
          (fetch_from_arxiv st.maxRetries env.currentYear env.arxivResponses).1) =
          Except.ok r := congrArg Prod.fst h
      have h3 : ({ st with cache := (q, mkResult data
          (fetch_from_arxiv st.maxRetries env.currentYear env.arxivResponses).1) :: st.cache }
          : AgentState) = st1 := congrArg (fun p => p.2.2) h
      rw [← h3, ← Except.ok.inj h1]
      simp [List.lookup]

/-- Log-line census of a cache-miss `fetch_external_data` call, for messages with
21st character `Q` (the three adapter entry lines): the chosen summary adapter's
entry line appears according to the router, and the arXiv entry line appears
exactly when the summary adapter returned without raising. -/
theorem countLog_fetch_miss (env : Env) (st : AgentState) (q m : String)
    (hmiss : st.cache.lookup q = none) (hm : m.data[20]? = some 'Q') :
    countLog m (fetch_external_data env st q).2.1 =
      (if isSpaceQuery q = true then (if nasaEntryMsg = m then 1 else 0)
       else (if googleEntryMsg = m then 1 else 0)) +
      (if isOkE (fetch_external_data env st q).1 = true
       then (if arxivEntryMsg = m then 1 else 0) else 0) := by
  simp only [fetch_external_data, hmiss]
  split
  · -- the summary adapter raised: no arXiv call
    split
    · -- space-related: NASA adapter ran
      simp only [countLog, isOkE]
      rw [if_neg (msg_ne_of_char20 (processingMsg_char20 q) hm (by decide))]
      rw [countLog_nasaGo st.maxRetries env.nasaResponses m hm st.maxRetries 0]
      simp
    · -- not space-related: Google adapter ran
      simp only [countLog, isOkE]
      rw [if_neg (msg_ne_of_char20 (processingMsg_char20 q) hm (by decide))]
      rw [countLog_googleGo st.maxRetries env.googleResponses m hm st.maxRetries 0]
      simp
  · -- the summary adapter returned: arXiv ran as well
    split
    · -- space-related: NASA adapter ran
      simp only [countLog, List.append_eq, countLog_append, isOkE]
      rw [if_neg (msg_ne_of_char20 (processingMsg_char20 q) hm (by decide))]
      rw [countLog_nasaGo st.maxRetries env.nasaResponses m hm st.maxRetries 0]
      rw [countLog_fetch_from_arxiv st.maxRetries env.currentYear env.arxivResponses m hm]
      rw [if_neg (msg_ne_of_char20 (foundMsg_char20 _) hm (by decide))]
      rw [if_neg (msg_ne_of_char20 (show cachedMsg.data[20]? = some 'C' by decide) hm
        (by decide))]
      simp
    · -- not space-related: Google adapter ran
      simp only [countLog, List.append_eq, countLog_append, isOkE]
      rw [if_neg (msg_ne_of_char20 (processingMsg_char20 q) hm (by decide))]
      rw [countLog_googleGo st.maxRetries env.googleResponses m hm st.maxRetries 0]
      rw [countLog_fetch_from_arxiv st.maxRetries env.currentYear env.arxivResponses m hm]
      rw [if_neg (msg_ne_of_char20 (foundMsg_char20 _) hm (by decide))]
      rw [if_neg (msg_ne_of_char20 (show cachedMsg.data[20]? = some 'C' by decide) hm
        (by decide))]
      simp

/-- C1: calling `fetch_external_data` twice with the same exact query text, the
first call returning composite `r`, makes the second call (under any network
environment) a pure cache hit: it returns the same composite `r`, forwards it to
the memory sink, and its trace shows zero outbound HTTP requests and zero
invocations of any of the three source adapters. -/
theorem C1_fetch_idempotent_cache_hit (env1 env2 : Env) (st : AgentState) (q : String)
    (r : PyDict) (t1 : List Effect) (st1 : AgentState)
    (h : fetch_external_data env1 st q = (.ok r, t1, st1)) :
    fetch_external_data env2 st1 q = (.ok r, cacheHitTrace q r, st1) ∧
    networkCalls (cacheHitTrace q r) = 0 ∧
    countLog googleEntryMsg (cacheHitTrace q r) = 0 ∧
    countLog nasaEntryMsg (cacheHitTrace q r) = 0 ∧
    countLog arxivEntryMsg (cacheHitTrace q r) = 0 := by
  have hl := fetch_cache_lookup h
  refine ⟨?_, rfl, ?_, ?_, ?_⟩
  · simp only [fetch_external_data, hl]
    rfl
  · simp only [cacheHitTrace, countLog]
    rw [if_neg (msg_ne_of_char20 (processingMsg_char20 q)
      (show googleEntryMsg.data[20]? = some 'Q' by decide) (by decide))]
    rw [if_neg (show cacheHitMsg ≠ googleEntryMsg by decide)]
  · simp only [cacheHitTrace, countLog]
    rw [if_neg (msg_ne_of_char20 (processingMsg_char20 q)
      (show nasaEntryMsg.data[20]? = some 'Q' by decide) (by decide))]
    rw [if_neg (show cacheHitMsg ≠ nasaEntryMsg by decide)]
  · simp only [cacheHitTrace, countLog]
    rw [if_neg (msg_ne_of_char20 (processingMsg_char20 q)
      (show arxivEntryMsg.data[20]? = some 'Q' by decide) (by decide))]
    rw [if_neg (show cacheHitMsg ≠ arxivEntryMsg by decide)]

/-- C1 witness: a concrete repeat call on the query `"pizza"` after a successful
first call short-circuits to the cached composite. -/
theorem C1_witness :
    fetch_external_data
        ⟨fun _ => ⟨200, some ⟨none⟩⟩, fun _ => ⟨200, none⟩, fun _ => ⟨404, []⟩, 2025⟩
        ⟨1, [("pizza", mkResult "No web results found." [])]⟩ "pizza"
      = (.ok (mkResult "No web results found." []),
         cacheHitTrace "pizza" (mkResult "No web results found." []),
         ⟨1, [("pizza", mkResult "No web results found." [])]⟩) :=
  (C1_fetch_idempotent_cache_hit
    ⟨fun _ => ⟨200, some ⟨none⟩⟩, fun _ => ⟨200, none⟩, fun _ => ⟨404, []⟩, 2025⟩
    ⟨fun _ => ⟨200, some ⟨none⟩⟩, fun _ => ⟨200, none⟩, fun _ => ⟨404, []⟩, 2025⟩
    ⟨1, []⟩ "pizza" (mkResult "No web results found." []) _ _ rfl).1

/-- C2: on a cache miss, the router classifies the query as space-related exactly
when its lowercased text contains one of the seven fixed keywords as a substring,
and exactly one of the two summary adapters is invoked: the NASA (astronomy)
adapter when space-related, the Google (web-search) adapter otherwise. -/
theorem C2_router_selects_exactly_one_summary_adapter (env : Env) (st : AgentState)
    (q : String) (hmiss : st.cache.lookup q = none) :
    (isSpaceQuery q = true ↔
      ∃ k ∈ space_keywords, ∃ l r, l ++ k.data ++ r = q.data.map Char.toLower) ∧
    (isSpaceQuery q = true →
      countLog nasaEntryMsg (fetch_external_data env st q).2.1 = 1 ∧
      countLog googleEntryMsg (fetch_external_data env st q).2.1 = 0) ∧
    (isSpaceQuery q = false →
      countLog googleEntryMsg (fetch_external_data env st q).2.1 = 1 ∧
      countLog nasaEntryMsg (fetch_external_data env st q).2.1 = 0) := by
  have hn := countLog_fetch_miss env st q nasaEntryMsg hmiss (by decide)
  have hg := countLog_fetch_miss env st q googleEntryMsg hmiss (by decide)
  have e1 : googleEntryMsg ≠ nasaEntryMsg := by decide
  have e2 : nasaEntryMsg ≠ googleEntryMsg := by decide
  have e3 : arxivEntryMsg ≠ nasaEntryMsg := by decide
  have e4 : arxivEntryMsg ≠ googleEntryMsg := by decide
  refine ⟨isSpaceQuery_iff q, fun hsp => ?_, fun hsp => ?_⟩
  · rw [hsp] at hn hg
    simp [e1, e2, e3, e4] at hn hg
    exact ⟨hn, hg⟩
  · rw [hsp] at hn hg
    simp [e1, e2, e3, e4] at hn hg
    exact ⟨hg, hn⟩

/-- C2 witness: the spec's two routing examples, on concrete environments. -/
theorem C2_witness :
    countLog nasaEntryMsg
      (fetch_external_data ⟨fun _ => ⟨500, none⟩, fun _ => ⟨500, none⟩, fun _ => ⟨500, []⟩, 2025⟩
        ⟨1, []⟩ "latest asteroid discovery").2.1 = 1 ∧
    countLog googleEntryMsg
      (fetch_external_data ⟨fun _ => ⟨500, none⟩, fun _ => ⟨500, none⟩, fun _ => ⟨500, []⟩, 2025⟩
        ⟨1, []⟩ "latest asteroid discovery").2.1 = 0 ∧
    countLog googleEntryMsg
      (fetch_external_data ⟨fun _ => ⟨500, none⟩, fun _ => ⟨500, none⟩, fun _ => ⟨500, []⟩, 2025⟩
        ⟨1, []⟩ "best pizza recipe").2.1 = 1 ∧
    countLog nasaEntryMsg
      (fetch_external_data ⟨fun _ => ⟨500, none⟩, fun _ => ⟨500, none⟩, fun _ => ⟨500, []⟩, 2025⟩
        ⟨1, []⟩ "best pizza recipe").2.1 = 0 := by
  obtain ⟨-, h2, -⟩ := C2_router_selects_exactly_one_summary_adapter
    ⟨fun _ => ⟨500, none⟩, fun _ => ⟨500, none⟩, fun _ => ⟨500, []⟩, 2025⟩
    ⟨1, []⟩ "latest asteroid discovery" rfl
  obtain ⟨h21, h22⟩ := h2 (by decide)
  obtain ⟨-, -, h3⟩ := C2_router_selects_exactly_one_summary_adapter
    ⟨fun _ => ⟨500, none⟩, fun _ => ⟨500, none⟩, fun _ => ⟨500, []⟩, 2025⟩
    ⟨1, []⟩ "best pizza recipe" rfl
  obtain ⟨h31, h32⟩ := h3 (by decide)
  exact ⟨h21, h22, h31, h32⟩

/-- C7 counterexample: on a cache miss where the chosen summary adapter raises on
a malformed JSON body, the research-feed adapter is never invoked, so the claim
that the feed adapter runs exactly once on every cache miss fails. -/
theorem C7_cex_feed_skipped_on_summary_exception :
    (([] : List (String × PyDict)).lookup "pizza" = none) ∧
    countLog arxivEntryMsg
      (fetch_external_data
        ⟨fun _ => ⟨200, none⟩, fun _ => ⟨200, none⟩, fun _ => ⟨200, []⟩, 2025⟩
        ⟨2, []⟩ "pizza").2.1 = 0 := by
  exact ⟨rfl, by decide⟩

/-- C7 (amended): on a cache miss, whenever `fetch_external_data` returns a
composite (i.e. the chosen summary adapter resolved without raising), the
research-feed adapter is invoked exactly once, regardless of which summary
adapter the router selected. -/
theorem C7_feed_invoked_once_on_normal_return (env : Env) (st : AgentState)
    (q : String) (r : PyDict) (hmiss : st.cache.lookup q = none)
    (hok : (fetch_external_data env st q).1 = .ok r) :
    countLog arxivEntryMsg (fetch_external_data env st q).2.1 = 1 := by
  have hc := countLog_fetch_miss env st q arxivEntryMsg hmiss (by decide)
  have e1 : nasaEntryMsg ≠ arxivEntryMsg := by decide
  have e2 : googleEntryMsg ≠ arxivEntryMsg := by decide
  rw [hok] at hc
  simp [isOkE, e1, e2] at hc
  exact hc

/-- C7 witness: a concrete cache miss that returns normally invokes the feed
adapter exactly once. -/
theorem C7_witness :
    countLog arxivEntryMsg
      (fetch_external_data
        ⟨fun _ => ⟨200, some ⟨none⟩⟩, fun _ => ⟨200, none⟩, fun _ => ⟨404, []⟩, 2025⟩
        ⟨1, []⟩ "pizza").2.1 = 1 :=
  C7_feed_invoked_once_on_normal_return
    ⟨fun _ => ⟨200, some ⟨none⟩⟩, fun _ => ⟨200, none⟩, fun _ => ⟨404, []⟩, 2025⟩
    ⟨1, []⟩ "pizza" (mkResult "No web results found." []) rfl rfl

/-- C8: the cache is only ever written with the fully combined composite: a call
either leaves the cache unchanged (cache hit, or an escaped summary-adapter
exception) or extends it by exactly one entry, keyed by the query, whose value is
the composite combining the resolved summary text and the resolved feed list —
and that value is exactly the composite returned to the caller. -/
theorem C8_cache_only_full_composite (env : Env) (st : AgentState) (q : String) :
    ((fetch_external_data env st q).2.2).cache = st.cache ∨
    (∃ s papers,
      (if isSpaceQuery q = true then fetch_from_nasa st.maxRetries env.nasaResponses
       else fetch_from_google st.maxRetries env.googleResponses).1 = .ok s ∧
      papers = (fetch_from_arxiv st.maxRetries env.currentYear env.arxivResponses).1 ∧
      (fetch_external_data env st q).1 = .ok (mkResult s papers) ∧
      ((fetch_external_data env st q).2.2).cache = (q, mkResult s papers) :: st.cache) := by
  simp only [fetch_external_data]
  split
  · exact Or.inl rfl
  · split
    · exact Or.inl rfl
    · rename_i data heq
      exact Or.inr ⟨data, _, heq, rfl, rfl, rfl⟩

/-- C9: every composite returned by `fetch_external_data` (from a state whose
cache holds only well-formed composites) is a dict with exactly the two
top-level keys `"summary"` (holding text) and `"recent_advancements"` (holding a
possibly empty paper list). -/
theorem C9_composite_shape (env : Env) (st : AgentState) (q : String) (r : PyDict)
    (hwf : ∀ p ∈ st.cache, ∃ s papers, p.2 = mkResult s papers)
    (hok : (fetch_external_data env st q).1 = .ok r) :
    r.map Prod.fst = ["summary", "recent_advancements"] ∧
    (∃ s, r.lookup "summary" = some (RVal.str s)) ∧
    (∃ papers, r.lookup "recent_advancements" = some (RVal.papers papers)) := by
  have hshape : ∃ s papers, r = mkResult s papers := by
    simp only [fetch_external_data] at hok
    split at hok
    · rename_i cached heq
      obtain ⟨k', hk'⟩ := lookup_mem st.cache q cached heq
      obtain ⟨s, papers, hp⟩ := hwf (k', cached) hk'
      exact ⟨s, papers, by rw [← Except.ok.inj hok]; exact hp⟩
    · split at hok
      · exact absurd hok (by simp)
      · rename_i data heq
        exact ⟨data, _, (Except.ok.inj hok).symm⟩
  obtain ⟨s, papers, rfl⟩ := hshape
  exact ⟨rfl, ⟨s, rfl⟩, ⟨papers, rfl⟩⟩

/-- C9 witness: a concrete fetch returns the two-field composite shape. -/
theorem C9_witness :
    (mkResult "No web results found." []).map Prod.fst =
      ["summary", "recent_advancements"] ∧
    (∃ s, (mkResult "No web results found." []).lookup "summary" =
      some (RVal.str s)) ∧
    (∃ papers, (mkResult "No web results found." []).lookup "recent_advancements" =
      some (RVal.papers papers)) :=
  C9_composite_shape
    ⟨fun _ => ⟨200, some ⟨none⟩⟩, fun _ => ⟨200, none⟩, fun _ => ⟨404, []⟩, 2025⟩
    ⟨1, []⟩ "pizza" (mkResult "No web results found." [])
    (fun p hp => absurd hp (List.not_mem_nil p)) rfl

/-- C3: for each summary adapter, when every one of the `N` configured attempts
yields a non-success status, the adapter sleeps one time unit after each failed
attempt and returns (rather than raising) its labeled sentinel text, which
contains the attempt count. -/
theorem C3_summary_retry_exhaustion_sentinel (N : Nat)
    (gresp : Nat → GoogleResponse) (nresp : Nat → NasaResponse)
    (hg : ∀ i, i < N → (gresp i).status ≠ 200)
    (hn : ∀ i, i < N → (nresp i).status ≠ 200) :
    ((fetch_from_google N gresp).1 = .ok (googleSentinel N) ∧
     googleSentinel N =
       "Error: Google Search API request failed after " ++ toString N ++ " attempts." ∧
     sleepFilter (fetch_from_google N gresp).2 = List.replicate N (.sleep 1)) ∧
    ((fetch_from_nasa N nresp).1 = .ok (nasaSentinel N) ∧
     nasaSentinel N =
       "Error: NASA API request failed after " ++ toString N ++ " attempts." ∧
     sleepFilter (fetch_from_nasa N nresp).2 = List.replicate N (.sleep 1)) := by
  have hg' := googleGo_exhaust N gresp N 0 (fun i hi => by simpa using hg i hi)
  have hn' := nasaGo_exhaust N nresp N 0 (fun i hi => by simpa using hn i hi)
  constructor
  · refine ⟨?_, rfl, ?_⟩
    · unfold fetch_from_google
      rw [hg']
    · unfold fetch_from_google
      rw [hg']
      simp only [sleepFilter]
      exact sleepFilter_googleFailTrace gresp N 0
  · refine ⟨?_, rfl, ?_⟩
    · unfold fetch_from_nasa
      rw [hn']
    · unfold fetch_from_nasa
      rw [hn']
      simp only [sleepFilter]
      exact sleepFilter_nasaFailTrace nresp N 0

/-- C3 witness: two failing attempts against each summary source yield the two
sentinels and two one-unit sleeps each. -/
theorem C3_witness :
    (fetch_from_google 2 (fun _ => ⟨500, none⟩)).1 = .ok (googleSentinel 2) ∧
    sleepFilter (fetch_from_google 2 (fun _ => ⟨500, none⟩)).2 =
      List.replicate 2 (.sleep 1) ∧
    (fetch_from_nasa 2 (fun _ => ⟨404, none⟩)).1 = .ok (nasaSentinel 2) ∧
    sleepFilter (fetch_from_nasa 2 (fun _ => ⟨404, none⟩)).2 =
      List.replicate 2 (.sleep 1) := by
  have h := C3_summary_retry_exhaustion_sentinel 2 (fun _ => ⟨500, none⟩)
    (fun _ => ⟨404, none⟩) (fun i _ => (by decide : (500 : Nat) ≠ 200))
    (fun i _ => (by decide : (404 : Nat) ≠ 200))
  exact ⟨h.1.1, h.1.2.2, h.2.1, h.2.2.2⟩

/-- C5 counterexample: a success-status response whose body is not well-formed
JSON makes the web-search adapter raise (`response.json()` is not wrapped), so
the claim that every response yields a string result fails. -/
theorem C5_cex_malformed_json_raises :
    (fetch_from_google 2 (fun _ => ⟨200, none⟩)).1 = .error PyExc.jsonDecodeError := rfl

/-- C5 (amended): non-success HTTP statuses are swallowed into the textual
sentinel and, provided every success-status response attempted has a well-formed
JSON body, the web-search adapter always returns a string result; only a
malformed body on a success-status response escapes as an exception. -/
theorem C5_http_errors_swallowed_to_text (N : Nat) (resp : Nat → GoogleResponse)
    (hjson : ∀ i, (resp i).status = 200 → (resp i).body ≠ none) :
    ∃ s, (fetch_from_google N resp).1 = .ok s := by
  suffices h : ∀ fuel attempt, ∃ s, (googleGo N resp attempt fuel).1 = .ok s by
    obtain ⟨s, hs⟩ := h N 0
    exact ⟨s, hs⟩
  intro fuel
  induction fuel with
  | zero => intro _; exact ⟨googleSentinel N, rfl⟩
  | succ f ih =>
    intro attempt
    simp only [googleGo]
    split
    · rename_i hst
      unfold googleHit
      rcases hb : (resp attempt).body with _ | b
      · exact absurd hb (hjson attempt hst)
      · rcases b with ⟨items⟩
        cases items with
        | none => exact ⟨_, rfl⟩
        | some its => exact ⟨_, rfl⟩
    · exact ih (attempt + 1)

/-- C5 witness: a well-formed success response yields a string result. -/
theorem C5_witness :
    ∃ s, (fetch_from_google 2 (fun _ => ⟨200, some ⟨some []⟩⟩)).1 = .ok s :=
  C5_http_errors_swallowed_to_text 2 (fun _ => ⟨200, some ⟨some []⟩⟩)
    (fun i h => (by decide : some (⟨some []⟩ : GoogleBody) ≠ none))

/-- C6: when every one of the `N` attempts against the research-feed endpoint
yields a non-success status, the feed adapter returns the empty list — a
sequence, structurally different from the summary adapters' sentinel strings —
after one one-unit sleep per failed attempt. -/
theorem C6_arxiv_exhaustion_empty (N y : Nat) (resp : Nat → ArxivResponse)
    (h : ∀ i, i < N → (resp i).status ≠ 200) :
    (fetch_from_arxiv N y resp).1 = [] ∧
    sleepFilter (fetch_from_arxiv N y resp).2 = List.replicate N (.sleep 1) := by
  have h' := arxivGo_exhaust resp N 0 (fun i hi => by simpa using h i hi)
  constructor
  · unfold fetch_from_arxiv
    rw [h']
  · unfold fetch_from_arxiv
    rw [h']
    show sleepFilter ((Effect.logEvent arxivEntryMsg :: arxivFailTrace resp 0 N)
      ++ [Effect.logEvent arxivExhaustMsg]) = _
    rw [sleepFilter_append]
    simp only [sleepFilter]
    rw [sleepFilter_arxivFailTrace resp N 0]
    simp

/-- C6 witness: two failing feed attempts yield the empty list and two sleeps. -/
theorem C6_witness :
    (fetch_from_arxiv 2 2025 (fun _ => ⟨500, []⟩)).1 = [] ∧
    sleepFilter (fetch_from_arxiv 2 2025 (fun _ => ⟨500, []⟩)).2 =
      List.replicate 2 (.sleep 1) :=
  C6_arxiv_exhaustion_empty 2 2025 (fun _ => ⟨500, []⟩)
    (fun i _ => (by decide : (500 : Nat) ≠ 200))

/-- C10 counterexample: a success response whose `items` array is present but
empty still writes the `external_urls` artifact (with the empty url list), so
the claim that a write happens only for a non-empty items array fails. -/
theorem C10_cex_empty_items_stored :
    Effect.storeData "external_urls" (StoredValue.urls []) ∈
      (fetch_from_google 2 (fun _ => ⟨200, some ⟨some []⟩⟩)).2 := by
  decide

/-- Membership of the `external_urls` store in a status-200 Google attempt body:
it is written exactly when the JSON body parses and has an `items` key, and the
stored value is the list of the items' link fields, in order. -/
theorem store_mem_googleHit (r : GoogleResponse) (v : StoredValue) :
    (Effect.storeData "external_urls" v ∈ (googleHit r).2) ↔
    (∃ b items, r.body = some b ∧ b.items = some items ∧
      v = .urls (items.map GItem.link)) := by
  rcases r with ⟨st, body⟩
  cases body with
  | none => simp [googleHit]
  | some b =>
    rcases b with ⟨items⟩
    cases items with
    | none => simp [googleHit]
    | some its => simp [googleHit]

/-- C10 (amended): the web-search adapter stores the `external_urls` artifact
exactly when its first status-200 attempt has a JSON body with an `items` key
(possibly an empty array); the stored value is the list of the items' link
fields in order. On retry exhaustion, or a success without an `items` key,
nothing is written. -/
theorem C10_external_urls_iff (N : Nat) (resp : Nat → GoogleResponse)
    (v : StoredValue) :
    Effect.storeData "external_urls" v ∈ (fetch_from_google N resp).2 ↔
    ∃ j, j < N ∧ (∀ i, i < j → (resp i).status ≠ 200) ∧ (resp j).status = 200 ∧
      ∃ items, (resp j).body = some ⟨some items⟩ ∧
        v = .urls (items.map GItem.link) := by
  by_cases hex : ∃ i, i < N ∧ (resp i).status = 200
  · obtain ⟨hjN, hj200⟩ := Nat.find_spec hex
    have hmin : ∀ i, i < Nat.find hex → (resp i).status ≠ 200 := by
      intro i hi hsi
      exact Nat.find_min hex hi ⟨by omega, hsi⟩
    have hgo := googleGo_success N resp (Nat.find hex) N 0 hjN (by simpa using hj200)
      (fun i hi => by simpa using hmin i hi)
    unfold fetch_from_google
    rw [hgo]
    constructor
    · intro hmem
      simp only [List.mem_cons, List.mem_append] at hmem
      rcases hmem with h | h | h
      · exact absurd h (by simp)
      · exact absurd h (store_not_mem_googleFailTrace resp _ v (Nat.find hex) 0)
      · obtain ⟨b, items, hb, hib, hv⟩ := (store_mem_googleHit _ v).mp h
        refine ⟨Nat.find hex, hjN, hmin, hj200, items, ?_, hv⟩
        have hbshape : b = ⟨some items⟩ := by
          cases b
          simpa using hib
        rw [hbshape] at hb
        simpa using hb
    · rintro ⟨j, hjN', hfail', hs', items, hb', hv⟩
      have hj_eq : j = Nat.find hex := by
        by_contra hne
        rcases Nat.lt_or_ge j (Nat.find hex) with hlt | hge
        · exact hmin j hlt hs'
        · have hlt2 : Nat.find hex < j := by omega
          exact hfail' (Nat.find hex) hlt2 hj200
      subst hj_eq
      simp only [List.mem_cons, List.mem_append]
      right; right
      exact (store_mem_googleHit _ v).mpr ⟨⟨some items⟩, items, by simpa using hb', rfl, hv⟩
  · push_neg at hex
    have hgo := googleGo_exhaust N resp N 0 (fun i hi => by simpa using hex i hi)
    unfold fetch_from_google
    rw [hgo]
    constructor
    · intro hmem
      simp only [List.mem_cons] at hmem
      rcases hmem with h | h
      · exact absurd h (by simp)
      · exact absurd h (store_not_mem_googleFailTrace resp _ v N 0)
    · rintro ⟨j, hjN', _, hs', _⟩
      exact absurd hs' (hex j hjN')
